import Mathlib

/-!
Shallow embedding of the Niquel project-management backend
(FastAPI + SQLAlchemy, `backend/app`), restricted to the parts the
specification's claims are about: the per-project access-control policy
(`app/api/routes/projects.py`, `check_project_access`,
`check_project_edit_access`, `check_project_admin_access`), the request
handlers that consume it (projects, assignments, periods, users, files),
and the pagination arithmetic shared by every list endpoint.

Identifiers (UUIDs in the source) are modelled as `Nat`; role strings are
kept as the literal strings the source compares against.  The database
session is modelled as an explicit record of row lists; each handler is a
pure function from the store (plus request data) to an `Except`-style
result, mirroring the source's raise-on-failure control flow.
-/

namespace Niquel

/-- A row of the `user` table (`app/db/models/user.py`): global role is one
of the strings "admin" | "manager" | "regular". -/
structure User where
  id : Nat
  email : String
  hashed_password : String
  name : String
  role : String
  is_active : Bool
deriving Repr, DecidableEq

/-- A row of the `project` table (`app/db/models/project.py`): exactly one
owner, referenced by id. -/
structure Project where
  id : Nat
  name : String
  description : String
  location : String
  ptype : String
  status : String
  owner_id : Nat
deriving Repr, DecidableEq

/-- A row of the `userassignment` table (`app/db/models/assignment.py`):
one (user, project) pair with a per-project role string. -/
structure Assignment where
  id : Nat
  user_id : Nat
  project_id : Nat
  role : String
  assigned_by : Nat
deriving Repr, DecidableEq

/-- A row of the `period` table (`app/db/models/period.py`).  Dates and
times are opaque scalars here (`Nat`), floats are opaque `Int` scalars:
no claim depends on their arithmetic.  Nullable columns are `Option`s. -/
structure Period where
  id : Nat
  project_id : Nat
  name : String
  start_date : Nat
  end_date : Nat
  volume : Option Int
  start_time : Option Nat
  width : Option Int
  max_depth : Option Int
  notes : Option String
  created_by : Option Nat
  kml_file_id : Option Nat
deriving Repr, DecidableEq

/-- A row of the `file` table (`app/db/models/file.py`). -/
structure FileRow where
  id : Nat
  name : String
  path : String
  size : Nat
  content_type : String
  category : String
  project_id : Nat
  period_id : Option Nat
  uploaded_by : Nat
deriving Repr, DecidableEq

/-- The database session: one list of rows per table. -/
structure DB where
  users : List User
  projects : List Project
  assignments : List Assignment
  periods : List Period
  files : List FileRow
deriving Repr

/-- Error taxonomy of `app/core/exceptions.py` plus the bare
`HTTPException`s the routes raise directly: 403 authorization denials,
404 not-found, 400 validation, 400 file-upload failures. -/
inductive ApiError where
  | authorization : ApiError
  | notFound : ApiError
  | validationErr : ApiError
  | fileUpload : ApiError
deriving Repr, DecidableEq

/-! ## The access-control policy (`projects.py` lines 218-299) -/

/-- `check_project_access` (projects.py:218): admin global role, else
owner row lookup, else any assignment row for (project, user). -/
def check_project_access (db : DB) (project_id : Nat) (user : User) : Bool :=
  if user.role == "admin" then
    true
  else if db.projects.any (fun p => p.id == project_id && p.owner_id == user.id) then
    true
  else
    db.assignments.any (fun a => a.project_id == project_id && a.user_id == user.id)

/-- `check_project_edit_access` (projects.py:244): admin global role, else
owner, else an assignment row whose role is in ["editor", "admin"]. -/
def check_project_edit_access (db : DB) (project_id : Nat) (user : User) : Bool :=
  if user.role == "admin" then
    true
  else if db.projects.any (fun p => p.id == project_id && p.owner_id == user.id) then
    true
  else
    db.assignments.any (fun a =>
      a.project_id == project_id && a.user_id == user.id &&
        (a.role == "editor" || a.role == "admin"))

/-- `check_project_admin_access` (projects.py:273): admin global role, else
owner, else an assignment row whose role equals "admin". -/
def check_project_admin_access (db : DB) (project_id : Nat) (user : User) : Bool :=
  if user.role == "admin" then
    true
  else if db.projects.any (fun p => p.id == project_id && p.owner_id == user.id) then
    true
  else
    db.assignments.any (fun a =>
      a.project_id == project_id && a.user_id == user.id && a.role == "admin")

/-! ## Reference (spec-side) tier definitions, for the refinement claim.
These follow the wording of the spec's three-tier definition, to be
compared with the functions above translated from the source. -/

/-- Spec wording: "user is the project owner". -/
def specIsOwner (db : DB) (project_id : Nat) (user : User) : Prop :=
  ∃ p ∈ db.projects, p.id = project_id ∧ p.owner_id = user.id

/-- Spec wording for the View tier: global admin, or owner, or an
assignment exists for (user, project) with any role. -/
def specView (db : DB) (project_id : Nat) (user : User) : Prop :=
  user.role = "admin" ∨ specIsOwner db project_id user ∨
    ∃ a ∈ db.assignments, a.user_id = user.id ∧ a.project_id = project_id

/-- Spec wording for the Edit tier: global admin, or owner, or an
assignment exists with role ∈ \x7beditor, admin\x7d. -/
def specEdit (db : DB) (project_id : Nat) (user : User) : Prop :=
  user.role = "admin" ∨ specIsOwner db project_id user ∨
    ∃ a ∈ db.assignments, a.user_id = user.id ∧ a.project_id = project_id ∧
      (a.role = "editor" ∨ a.role = "admin")

/-- Spec wording for the Admin tier: global admin, or owner, or an
assignment exists with role == admin. -/
def specAdmin (db : DB) (project_id : Nat) (user : User) : Prop :=
  user.role = "admin" ∨ specIsOwner db project_id user ∨
    ∃ a ∈ db.assignments, a.user_id = user.id ∧ a.project_id = project_id ∧
      a.role = "admin"

/-! ## Helper lemmas about the three tier checks -/

theorem check_access_iff (db : DB) (pid : Nat) (u : User) :
    check_project_access db pid u = true ↔ specView db pid u := by
  unfold check_project_access specView specIsOwner
  split
  · next h => simp_all
  · next h =>
    split
    · next h2 =>
      simp only [List.any_eq_true, Bool.and_eq_true, beq_iff_eq] at h2
      simp only [true_iff]
      obtain ⟨p, hp, h1, h2⟩ := h2
      exact Or.inr (Or.inl ⟨p, hp, h1, h2⟩)
    · next h2 =>
      simp only [List.any_eq_true, Bool.and_eq_true, beq_iff_eq] at *
      constructor
      · rintro ⟨a, ha, h1, h2⟩
        exact Or.inr (Or.inr ⟨a, ha, h2, h1⟩)
      · rintro (h1 | ⟨p, hp, h1, h3⟩ | ⟨a, ha, h1, h3⟩)
        · simp_all
        · exact absurd ⟨p, hp, h1, h3⟩ h2
        · exact ⟨a, ha, h3, h1⟩

theorem check_edit_iff (db : DB) (pid : Nat) (u : User) :
    check_project_edit_access db pid u = true ↔ specEdit db pid u := by
  unfold check_project_edit_access specEdit specIsOwner
  split
  · next h => simp_all
  · next h =>
    split
    · next h2 =>
      simp only [List.any_eq_true, Bool.and_eq_true, beq_iff_eq] at h2
      simp only [true_iff]
      obtain ⟨p, hp, h1, h2⟩ := h2
      exact Or.inr (Or.inl ⟨p, hp, h1, h2⟩)
    · next h2 =>
      simp only [List.any_eq_true, Bool.and_eq_true, Bool.or_eq_true, beq_iff_eq] at *
      constructor
      · rintro ⟨a, ha, ⟨h1, h2⟩, h3⟩
        exact Or.inr (Or.inr ⟨a, ha, h2, h1, h3⟩)
      · rintro (h1 | ⟨p, hp, h1, h3⟩ | ⟨a, ha, h1, h3, h4⟩)
        · simp_all
        · exact absurd ⟨p, hp, h1, h3⟩ h2
        · exact ⟨a, ha, ⟨h3, h1⟩, h4⟩

theorem check_admin_iff (db : DB) (pid : Nat) (u : User) :
    check_project_admin_access db pid u = true ↔ specAdmin db pid u := by
  unfold check_project_admin_access specAdmin specIsOwner
  split
  · next h => simp_all
  · next h =>
    split
    · next h2 =>
      simp only [List.any_eq_true, Bool.and_eq_true, beq_iff_eq] at h2
      simp only [true_iff]
      obtain ⟨p, hp, h1, h2⟩ := h2
      exact Or.inr (Or.inl ⟨p, hp, h1, h2⟩)
    · next h2 =>
      simp only [List.any_eq_true, Bool.and_eq_true, beq_iff_eq] at *
      constructor
      · rintro ⟨a, ha, ⟨h1, h2⟩, h3⟩
        exact Or.inr (Or.inr ⟨a, ha, h2, h1, h3⟩)
      · rintro (h1 | ⟨p, hp, h1, h3⟩ | ⟨a, ha, h1, h3, h4⟩)
        · simp_all
        · exact absurd ⟨p, hp, h1, h3⟩ h2
        · exact ⟨a, ha, ⟨h3, h1⟩, h4⟩

theorem owner_has_admin_access (db : DB) (pid : Nat) (u : User)
    (h : specIsOwner db pid u) : check_project_admin_access db pid u = true := by
  exact (check_admin_iff db pid u).mpr (Or.inr (Or.inl h))

/-- C1: The three tier checks of `projects.py` coincide exactly with the
spec's three-tier reference definition; consequently a project owner
holds every tier regardless of any assignment role on record, and a
global admin holds every tier with zero assignment rows. -/
theorem policy_is_three_tier_reference (db : DB) (pid : Nat) (u : User) :
    (check_project_access db pid u = true ↔ specView db pid u) ∧
    (check_project_edit_access db pid u = true ↔ specEdit db pid u) ∧
    (check_project_admin_access db pid u = true ↔ specAdmin db pid u) ∧
    (specIsOwner db pid u →
      check_project_access db pid u = true ∧
      check_project_edit_access db pid u = true ∧
      check_project_admin_access db pid u = true) ∧
    (u.role = "admin" →
      check_project_access db pid u = true ∧
      check_project_edit_access db pid u = true ∧
      check_project_admin_access db pid u = true) := by
  refine ⟨check_access_iff db pid u, check_edit_iff db pid u,
    check_admin_iff db pid u, ?_, ?_⟩
  · intro h
    exact ⟨(check_access_iff db pid u).mpr (Or.inr (Or.inl h)),
      (check_edit_iff db pid u).mpr (Or.inr (Or.inl h)),
      (check_admin_iff db pid u).mpr (Or.inr (Or.inl h))⟩
  · intro h
    exact ⟨(check_access_iff db pid u).mpr (Or.inl h),
      (check_edit_iff db pid u).mpr (Or.inl h),
      (check_admin_iff db pid u).mpr (Or.inl h)⟩

/-- Concrete store for witnesses: owner u1 of project 10 carries an
explicit "viewer" assignment, u3 is a global admin with no rows at all. -/
def wUser1 : User :=
  { id := 1, email := "o@x", hashed_password := "h", name := "Owner",
    role := "regular", is_active := true }

def wUser3 : User :=
  { id := 3, email := "g@x", hashed_password := "h", name := "Globaladmin",
    role := "admin", is_active := true }

def wProject : Project :=
  { id := 10, name := "P", description := "", location := "", ptype := "t",
    status := "s", owner_id := 1 }

def wDB : DB :=
  { users := [wUser1, wUser3],
    projects := [wProject],
    assignments := [{ id := 100, user_id := 1, project_id := 10,
                      role := "viewer", assigned_by := 1 }],
    periods := [], files := [] }

theorem policy_is_three_tier_reference_witness :
    specIsOwner wDB 10 wUser1 ∧
    (check_project_access wDB 10 wUser1 = true ∧
     check_project_edit_access wDB 10 wUser1 = true ∧
     check_project_admin_access wDB 10 wUser1 = true) ∧
    wUser3.role = "admin" ∧
    check_project_admin_access wDB 10 wUser3 = true := by
  have hown : specIsOwner wDB 10 wUser1 := ⟨wProject, by decide, by decide, by decide⟩
  refine ⟨hown, (policy_is_three_tier_reference wDB 10 wUser1).2.2.2.1 hown, by decide, ?_⟩
  exact ((policy_is_three_tier_reference wDB 10 wUser3).2.2.2.2 (by decide)).2.2

/-- C2: Tier monotonicity: for any store, project and user, the Admin check
implies the Edit check, and the Edit check implies the View check. -/
theorem tier_monotonicity (db : DB) (pid : Nat) (u : User) :
    (check_project_admin_access db pid u = true →
      check_project_edit_access db pid u = true) ∧
    (check_project_edit_access db pid u = true →
      check_project_access db pid u = true) := by
  constructor
  · intro h
    rcases (check_admin_iff db pid u).mp h with h1 | h1 | ⟨a, ha, h1, h2, h3⟩
    · exact (check_edit_iff db pid u).mpr (Or.inl h1)
    · exact (check_edit_iff db pid u).mpr (Or.inr (Or.inl h1))
    · exact (check_edit_iff db pid u).mpr
        (Or.inr (Or.inr ⟨a, ha, h1, h2, Or.inr h3⟩))
  · intro h
    rcases (check_edit_iff db pid u).mp h with h1 | h1 | ⟨a, ha, h1, h2, _⟩
    · exact (check_access_iff db pid u).mpr (Or.inl h1)
    · exact (check_access_iff db pid u).mpr (Or.inr (Or.inl h1))
    · exact (check_access_iff db pid u).mpr (Or.inr (Or.inr ⟨a, ha, h1, h2⟩))

theorem tier_monotonicity_witness :
    check_project_admin_access wDB 10 wUser3 = true ∧
    check_project_edit_access wDB 10 wUser3 = true ∧
    check_project_access wDB 10 wUser3 = true := by
  have h : check_project_admin_access wDB 10 wUser3 = true := by decide
  have h2 := (tier_monotonicity wDB 10 wUser3).1 h
  exact ⟨h, h2, (tier_monotonicity wDB 10 wUser3).2 h2⟩

/-! ## Pagination (the dict literal repeated at the end of every list
endpoint, e.g. projects.py lines 72-78): `skip` and `limit` are Python
ints, `//` is floor division, so they are `Int` with `Int.fdiv` here. -/

/-- The paginated response shape (`app/models/base.py` `Paginated`). -/
structure Page (α : Type) where
  items : List α
  total : Nat
  page : Int
  page_size : Int
  pages : Int
deriving Repr, DecidableEq

/-- The shared list-endpoint tail: count the full query for `total`, slice
with offset/limit for `items`, and compute `page`/`pages` exactly as the
source's conditional expressions do. -/
def paginate {α : Type} (l : List α) (skip limit : Int) : Page α :=
  { items := (l.drop skip.toNat).take limit.toNat,
    total := l.length,
    page := if 0 < limit then skip.fdiv limit + 1 else 1,
    page_size := limit,
    pages := if 0 < limit then ((l.length : Int) + limit - 1).fdiv limit else 1 }

/-! ## Project listing (`get_projects`, projects.py lines 27-78) -/

/-- The filter chain of projects.py lines 40-61.  Python's `if type:`
treats the empty string as absent, hence the extra emptiness test.  Users
whose global role is not in ["admin", "manager"] only see projects they
own or hold an assignment on. -/
def get_projects_query (db : DB) (u : User)
    (ptype pstatus : Option String) : List Project :=
  let q1 := match ptype with
    | some t => if t == "" then db.projects else db.projects.filter (fun p => p.ptype == t)
    | none => db.projects
  let q2 := match pstatus with
    | some s => if s == "" then q1 else q1.filter (fun p => p.status == s)
    | none => q1
  if !(u.role == "admin" || u.role == "manager") then
    q2.filter (fun p =>
      p.owner_id == u.id ||
        db.assignments.any (fun a => a.project_id == p.id && a.user_id == u.id))
  else
    q2

/-- `ORDER BY Project.name` (projects.py line 68), as an insertion sort on
the name field (the SQL engine is an external collaborator; any stable
ascending sort matches it up to ties). -/
def insertByName (p : Project) : List Project → List Project
  | [] => [p]
  | q :: rest =>
    if p.name ≤ q.name then p :: q :: rest else q :: insertByName p rest

def sortByName : List Project → List Project
  | [] => []
  | p :: rest => insertByName p (sortByName rest)

/-- `get_projects` (projects.py lines 27-78): filter, count, order, slice,
paginate. -/
def get_projects (db : DB) (u : User) (skip limit : Int)
    (ptype pstatus : Option String) : Page Project :=
  paginate (sortByName (get_projects_query db u ptype pstatus)) skip limit

/-! ## Single-project handlers (projects.py lines 108-214) -/

/-- The `ProjectStats` response of `get_project`: the project row plus
distinct child counts from the outer joins. -/
structure ProjectStats where
  project : Project
  period_count : Nat
  file_count : Nat
  assigned_users_count : Nat
deriving Repr, DecidableEq

/-- `get_project` (projects.py lines 108-152).  NOTE the source order:
`check_project_access` is invoked first (line 118) and a denial raises
403 before the project row is ever looked up; only afterwards does a
missing row raise `NotFoundException` (line 142). -/
def get_project (db : DB) (project_id : Nat) (u : User) :
    Except ApiError ProjectStats :=
  if check_project_access db project_id u = false then
    .error .authorization
  else
    match db.projects.find? (fun p => p.id == project_id) with
    | none => .error .notFound
    | some p =>
      .ok { project := p,
            period_count := (db.periods.filter (fun x => x.project_id == project_id)).length,
            file_count := (db.files.filter (fun f => f.project_id == project_id)).length,
            assigned_users_count :=
              (db.assignments.filter (fun a => a.project_id == project_id)).length }

/-- `delete_project` (projects.py lines 189-214): admin-tier check first
(403 on denial), then row lookup (404 when absent), then delete with the
ORM cascade to periods, files and assignments. -/
def delete_project (db : DB) (project_id : Nat) (u : User) :
    Except ApiError DB :=
  if check_project_admin_access db project_id u = false then
    .error .authorization
  else
    match db.projects.find? (fun p => p.id == project_id) with
    | none => .error .notFound
    | some _ =>
      .ok { db with
            projects := db.projects.filter (fun p => !(p.id == project_id)),
            periods := db.periods.filter (fun x => !(x.project_id == project_id)),
            files := db.files.filter (fun f => !(f.project_id == project_id)),
            assignments := db.assignments.filter (fun a => !(a.project_id == project_id)) }

/-! ## Assignment listing (`get_project_assignments`, assignments.py
lines 28-69) -/

/-- `get_project_assignments` (assignments.py lines 28-69).  NOTE: the
gate on line 39 is `check_project_admin_access`, not the view-tier
`check_project_access`. -/
def get_project_assignments (db : DB) (project_id : Nat) (u : User)
    (skip limit : Int) : Except ApiError (Page Assignment) :=
  if check_project_admin_access db project_id u = false then
    .error .authorization
  else
    .ok (paginate (db.assignments.filter (fun a => a.project_id == project_id))
          skip limit)

/-! ## Further concrete stores for counterexamples and witnesses -/

/-- A regular user with no global privileges. -/
def wUser2 : User :=
  { id := 2, email := "v@x", hashed_password := "h", name := "Viewer",
    role := "regular", is_active := true }

/-- A user whose global role is manager. -/
def wManager : User :=
  { id := 4, email := "m@x", hashed_password := "h", name := "Manager",
    role := "manager", is_active := true }

/-- `wDB` extended with a "viewer" assignment for `wUser2` on project 10. -/
def wDB3 : DB :=
  { wDB with
    assignments := wDB.assignments ++
      [{ id := 101, user_id := 2, project_id := 10, role := "viewer",
         assigned_by := 1 }] }

/-- The empty store. -/
def wEmptyDB : DB :=
  { users := [], projects := [], assignments := [], periods := [], files := [] }

/-- C3 counterexample: `wUser2` holds the View tier on project 10 through
its "viewer" assignment, yet the GET assignments-for-project handler
rejects the request with an authorization failure, because the handler
gates on `check_project_admin_access`. -/
theorem viewer_denied_assignment_list_counterexample :
    check_project_access wDB3 10 wUser2 = true ∧
    get_project_assignments wDB3 10 wUser2 0 20 = .error .authorization :=
  ⟨by decide, rfl⟩

/-- C3 (amended): listing a project's assignments requires the Admin
tier: the handler returns the assignment page when
`check_project_admin_access` grants, and an authorization error when it
denies — so View-tier-only users (e.g. holders of a bare "viewer"
assignment) are rejected. -/
theorem assignment_list_requires_admin_tier (db : DB) (pid : Nat) (u : User)
    (skip limit : Int) :
    (check_project_admin_access db pid u = true →
      get_project_assignments db pid u skip limit =
        .ok (paginate (db.assignments.filter (fun a => a.project_id == pid))
              skip limit)) ∧
    (check_project_admin_access db pid u = false →
      get_project_assignments db pid u skip limit = .error .authorization) := by
  unfold get_project_assignments
  constructor
  · intro h; simp [h]
  · intro h; simp [h]

theorem assignment_list_requires_admin_tier_witness :
    get_project_assignments wDB 10 wUser3 0 20 =
      .ok (paginate (wDB.assignments.filter (fun a => a.project_id == 10)) 0 20) ∧
    get_project_assignments wDB3 10 wUser2 0 20 = .error .authorization :=
  ⟨(assignment_list_requires_admin_tier wDB 10 wUser3 0 20).1 (by decide),
   (assignment_list_requires_admin_tier wDB3 10 wUser2 0 20).2 (by decide)⟩

/-- C4: evaluating `get_project` and `delete_project` at a project id
(999) that resolves to no project row, with a non-admin non-owner acting
user, yields the authorization error (403), not the not-found error: the
handlers invoke the access-control policy before resolving the project
row, contrary to the spec and to the repository's own test
`test_get_project_not_found`, which requests a nonexistent project as a
regular user and asserts a 404. -/
theorem nonexistent_project_yields_authorization_error :
    wDB.projects.all (fun p => !(p.id == 999)) = true ∧
    check_project_access wDB 999 wUser2 = false ∧
    get_project wDB 999 wUser2 = .error .authorization ∧
    delete_project wDB 999 wUser2 = .error .authorization :=
  ⟨by decide, by decide, rfl, rfl⟩

/-- C5 counterexample: for an empty listing with limit 20 the project
list endpoint returns pages = 0, not pages = 1 as the claim states. -/
theorem pagination_zero_total_counterexample :
    (get_projects wEmptyDB wUser3 0 20 none none).total = 0 ∧
    (get_projects wEmptyDB wUser3 0 20 none none).page = 1 ∧
    (get_projects wEmptyDB wUser3 0 20 none none).pages = 0 ∧
    (get_projects wEmptyDB wUser3 0 20 none none).pages ≠ 1 := by
  refine ⟨rfl, rfl, rfl, by decide⟩

/-- C5 (amended): for limit > 0 the returned page is skip/limit + 1
(floor division) and pages is the ceiling of total/limit — characterized
by total ≤ pages·limit and (pages−1)·limit < total — which is 0 (not 1)
when total = 0; for limit ≤ 0 both page and pages are 1.  The
total = 25, limit = 20, skip = 20 instance (5 remaining items, pages = 2)
is checked in the witness. -/
theorem pagination_arithmetic_amended {α : Type} (l : List α) (skip limit : Int) :
    (0 < limit →
      (paginate l skip limit).page = skip.fdiv limit + 1 ∧
      ((l.length : Int) ≤ (paginate l skip limit).pages * limit ∧
        ((paginate l skip limit).pages - 1) * limit < (l.length : Int)) ∧
      (l.length = 0 → (paginate l skip limit).pages = 0)) ∧
    (limit ≤ 0 →
      (paginate l skip limit).page = 1 ∧ (paginate l skip limit).pages = 1) := by
  constructor
  · intro hL
    have hb : (0 : Int) ≤ limit := le_of_lt hL
    have hT : (0 : Int) ≤ (l.length : Int) := Int.natCast_nonneg _
    refine ⟨by simp [paginate, hL], ?_, ?_⟩
    · have hpages : (paginate l skip limit).pages =
          ((l.length : Int) + limit - 1).fdiv limit := by
        simp [paginate, hL]
      rw [hpages, Int.fdiv_eq_ediv _ hb]
      have h1 := Int.ediv_add_emod ((l.length : Int) + limit - 1) limit
      have h2 := Int.emod_nonneg ((l.length : Int) + limit - 1) (ne_of_gt hL)
      have h3 := Int.emod_lt_of_pos ((l.length : Int) + limit - 1) hL
      set q := ((l.length : Int) + limit - 1) / limit with hq
      set r := ((l.length : Int) + limit - 1) % limit with hr
      have e1 : q * limit = limit * q := by ring
      have e2 : (q - 1) * limit = limit * q - limit := by ring
      constructor
      · rw [e1]; linarith
      · rw [e2]; linarith
    · intro h0
      have hlt : (l.length : Int) + limit - 1 < limit := by
        simp [h0]
      have hge : (0 : Int) ≤ (l.length : Int) + limit - 1 := by
        simp [h0]; omega
      simp only [paginate, if_pos hL]
      rw [Int.fdiv_eq_ediv _ hb]
      exact Int.ediv_eq_zero_of_lt hge hlt
  · intro hL
    have : ¬ (0 < limit) := not_lt.mpr hL
    constructor <;> simp [paginate, this]

theorem pagination_arithmetic_amended_witness :
    (0 : Int) < 20 ∧
    (paginate (List.range 25) 20 20).page = (20 : Int).fdiv 20 + 1 ∧
    (((List.range 25).length : Int) ≤ (paginate (List.range 25) 20 20).pages * 20 ∧
      ((paginate (List.range 25) 20 20).pages - 1) * 20 <
        ((List.range 25).length : Int)) ∧
    (paginate (List.range 25) 20 20).items = [20, 21, 22, 23, 24] ∧
    (paginate (List.range 25) 20 20).pages = 2 ∧
    (paginate (List.range 25) 20 20).page = 2 := by
  have h := (pagination_arithmetic_amended (List.range 25) 20 20).1 (by decide)
  exact ⟨by decide, h.1, h.2.1, by decide, by decide, by decide⟩

/-- C10: in the project listing, a user with global role admin or manager
receives every project (no ownership/assignment filter), every other
user receives exactly the projects they own or hold an assignment on,
and a manager is thereby listed projects that the per-project policy
(`check_project_access`, which grants managers no tier) would deny them
individually. -/
theorem manager_listing_bypasses_policy (db : DB) (u : User) (p : Project) :
    ((u.role = "admin" ∨ u.role = "manager") →
      get_projects_query db u none none = db.projects) ∧
    (u.role ≠ "admin" → u.role ≠ "manager" →
      ∀ q : Project, q ∈ get_projects_query db u none none ↔
        (q ∈ db.projects ∧ (q.owner_id = u.id ∨
          ∃ a ∈ db.assignments, a.project_id = q.id ∧ a.user_id = u.id))) ∧
    (u.role = "manager" → p ∈ db.projects →
      (∀ q ∈ db.projects, q.id = p.id → q.owner_id ≠ u.id) →
      (∀ a ∈ db.assignments, ¬(a.project_id = p.id ∧ a.user_id = u.id)) →
      p ∈ get_projects_query db u none none ∧
      check_project_access db p.id u = false) := by
  refine ⟨?_, ?_, ?_⟩
  · rintro (h | h) <;> simp [get_projects_query, h]
  · intro h1 h2 q
    have hcond : (!(u.role == "admin" || u.role == "manager")) = true := by
      simp [h1, h2]
    simp only [get_projects_query]
    rw [if_pos hcond, List.mem_filter]
    simp only [Bool.or_eq_true, beq_iff_eq, List.any_eq_true, Bool.and_eq_true]
  · intro hrole hp hown hassign
    constructor
    · simp [get_projects_query, hrole, hp]
    · unfold check_project_access
      have h1 : ¬ (u.role == "admin") = true := by simp [hrole]
      rw [if_neg h1]
      have h2 : db.projects.any (fun q => q.id == p.id && q.owner_id == u.id) = false := by
        simp only [List.any_eq_false, Bool.and_eq_true, beq_iff_eq, not_and]
        intro q hq hid
        exact hown q hq hid
      rw [if_neg (by simp [h2])]
      simp only [List.any_eq_false, Bool.and_eq_true, beq_iff_eq, not_and]
      intro a ha h3
      exact fun h4 => (hassign a ha) ⟨h3, h4⟩

theorem manager_listing_bypasses_policy_witness :
    get_projects_query wDB wManager none none = wDB.projects ∧
    (wProject ∈ get_projects_query wDB wManager none none ∧
      check_project_access wDB wProject.id wManager = false) := by
  refine ⟨(manager_listing_bypasses_policy wDB wManager wProject).1 (Or.inr rfl), ?_⟩
  exact (manager_listing_bypasses_policy wDB wManager wProject).2.2 rfl
    (by decide) (by decide) (by decide)

/-! ## Assignment creation (`assign_user_to_project`, assignments.py
lines 77-138) -/

/-- The request body (`UserAssignmentCreate`). -/
structure AssignmentCreate where
  user_id : Nat
  role : String
deriving Repr, DecidableEq

/-- `existing.role = assignment.role` (assignments.py:112): the first
assignment row matching the (user, project) pair gets the new role; all
other rows are untouched. -/
def setRoleFirst (uid pid : Nat) (r : String) : List Assignment → List Assignment
  | [] => []
  | a :: rest =>
    if a.user_id == uid && a.project_id == pid then
      { a with role := r } :: rest
    else
      a :: setRoleFirst uid pid r rest

/-- `assign_user_to_project` (assignments.py lines 77-138): admin-tier
check, target-user lookup, then update-in-place when an assignment for
the (user, project) pair exists, else insert a fresh row. -/
def assign_user_to_project (db : DB) (project_id : Nat)
    (body : AssignmentCreate) (cu : User) (fresh_id : Nat) :
    Except ApiError DB :=
  if check_project_admin_access db project_id cu = false then
    .error .authorization
  else
    match db.users.find? (fun x => x.id == body.user_id) with
    | none => .error .notFound
    | some _ =>
      match db.assignments.find? (fun a =>
          a.user_id == body.user_id && a.project_id == project_id) with
      | some _ =>
        .ok { db with assignments :=
                setRoleFirst body.user_id project_id body.role db.assignments }
      | none =>
        .ok { db with assignments := db.assignments ++
                [{ id := fresh_id, user_id := body.user_id,
                   project_id := project_id, role := body.role,
                   assigned_by := cu.id }] }

/-- The (user, project) key of each assignment row, in store order. -/
def assignmentPairs (l : List Assignment) : List (Nat × Nat) :=
  l.map (fun a => (a.user_id, a.project_id))

/-- The spec invariant: at most one assignment row per (user, project)
pair. -/
def AtMostOnePerPair (l : List Assignment) : Prop :=
  (assignmentPairs l).Nodup

instance (l : List Assignment) : Decidable (AtMostOnePerPair l) := by
  unfold AtMostOnePerPair
  infer_instance

/-- Number of assignment rows recorded for a project. -/
def projectAssignmentCount (l : List Assignment) (pid : Nat) : Nat :=
  (l.filter (fun a => a.project_id == pid)).length

theorem setRoleFirst_pairs (uid pid : Nat) (r : String) (l : List Assignment) :
    assignmentPairs (setRoleFirst uid pid r l) = assignmentPairs l := by
  induction l with
  | nil => rfl
  | cons a rest ih =>
    unfold setRoleFirst assignmentPairs
    split
    · rfl
    · simpa [assignmentPairs] using ih

theorem setRoleFirst_length (uid pid : Nat) (r : String) (l : List Assignment) :
    (setRoleFirst uid pid r l).length = l.length := by
  induction l with
  | nil => rfl
  | cons a rest ih =>
    unfold setRoleFirst
    split <;> simp [ih]

theorem setRoleFirst_projCount (uid pid : Nat) (r : String) (l : List Assignment)
    (pid' : Nat) :
    projectAssignmentCount (setRoleFirst uid pid r l) pid' =
      projectAssignmentCount l pid' := by
  induction l with
  | nil => rfl
  | cons a rest ih =>
    unfold setRoleFirst
    split
    · simp only [projectAssignmentCount, List.filter]
      cases hc : (a.project_id == pid') <;> simp
    · unfold projectAssignmentCount at *
      simp only [List.filter]
      cases hc : (a.project_id == pid') <;> simp [ih]

theorem setRoleFirst_updates (uid pid : Nat) (r : String) (l : List Assignment)
    (a : Assignment)
    (h : l.find? (fun x => x.user_id == uid && x.project_id == pid) = some a) :
    ∃ b ∈ setRoleFirst uid pid r l,
      b.user_id = uid ∧ b.project_id = pid ∧ b.role = r := by
  induction l with
  | nil => simp at h
  | cons x rest ih =>
    unfold setRoleFirst
    by_cases hc : (x.user_id == uid && x.project_id == pid) = true
    · simp only [Bool.and_eq_true, beq_iff_eq] at hc
      rw [if_pos (by simp [hc])]
      exact ⟨{ x with role := r }, List.mem_cons_self _ _, hc.1, hc.2, rfl⟩
    · rw [if_neg hc]
      have hcf : (x.user_id == uid && x.project_id == pid) = false := by
        simpa using hc
      simp only [List.find?, hcf] at h
      obtain ⟨b, hb, hprop⟩ := ih h
      exact ⟨b, List.mem_cons_of_mem _ hb, hprop⟩

theorem find?_none_pair_not_mem (uid pid : Nat) (l : List Assignment)
    (h : l.find? (fun a => a.user_id == uid && a.project_id == pid) = none) :
    (uid, pid) ∉ assignmentPairs l := by
  intro hmem
  simp only [assignmentPairs, List.mem_map] at hmem
  obtain ⟨a, ha, heq⟩ := hmem
  have h2 := List.find?_eq_none.mp h a ha
  have h3 : a.user_id = uid := congrArg Prod.fst heq
  have h4 : a.project_id = pid := congrArg Prod.snd heq
  simp [h3, h4] at h2

/-- C6: the assignment-creation endpoint preserves the at-most-one
assignment per (user, project) invariant, and when the pair already has
an assignment it updates the role in place: the store keeps the same
number of rows, the project's assignment count does not increase, and a
row for the pair now carries the requested role. -/
theorem assignment_create_upsert (db : DB) (pid : Nat)
    (body : AssignmentCreate) (cu : User) (fresh_id : Nat) (db' : DB)
    (hinv : AtMostOnePerPair db.assignments)
    (h : assign_user_to_project db pid body cu fresh_id = .ok db') :
    AtMostOnePerPair db'.assignments ∧
    (∀ a, db.assignments.find? (fun x =>
        x.user_id == body.user_id && x.project_id == pid) = some a →
      db'.assignments.length = db.assignments.length ∧
      projectAssignmentCount db'.assignments pid =
        projectAssignmentCount db.assignments pid ∧
      ∃ b ∈ db'.assignments, b.user_id = body.user_id ∧
        b.project_id = pid ∧ b.role = body.role) := by
  unfold assign_user_to_project at h
  by_cases hacc : check_project_admin_access db pid cu = false
  · rw [if_pos hacc] at h; exact absurd h (by simp)
  · rw [if_neg hacc] at h
    cases hu : db.users.find? (fun x => x.id == body.user_id) with
    | none => rw [hu] at h; exact absurd h (by simp)
    | some target =>
      rw [hu] at h
      cases hex : db.assignments.find? (fun a =>
          a.user_id == body.user_id && a.project_id == pid) with
      | some ex =>
        rw [hex] at h
        have h2 : (Except.ok { db with assignments := setRoleFirst body.user_id pid body.role db.assignments } : Except ApiError DB) = Except.ok db' := h
        have hdb := Except.ok.inj h2
        subst hdb
        constructor
        · unfold AtMostOnePerPair
          rw [setRoleFirst_pairs]
          exact hinv
        · intro a ha
          have hea : ex = a := Option.some.inj ha
          subst hea
          refine ⟨setRoleFirst_length _ _ _ _, setRoleFirst_projCount _ _ _ _ _, ?_⟩
          exact setRoleFirst_updates body.user_id pid body.role db.assignments ex hex
      | none =>
        rw [hex] at h
        have h2 : (Except.ok { db with assignments := db.assignments ++ [{ id := fresh_id, user_id := body.user_id, project_id := pid, role := body.role, assigned_by := cu.id }] } : Except ApiError DB) = Except.ok db' := h
        have hdb := Except.ok.inj h2
        subst hdb
        constructor
        · unfold AtMostOnePerPair at *
          simp only [assignmentPairs, List.map_append, List.map_cons,
            List.map_nil] at *
          rw [List.nodup_append]
          refine ⟨hinv, List.nodup_singleton _, ?_⟩
          intro x hx hx2
          have hx3 : x = (body.user_id, pid) := by simpa using hx2
          subst hx3
          exact find?_none_pair_not_mem body.user_id pid db.assignments hex hx
        · intro a ha
          exact absurd ha (by simp)

/-- `wDB3` with `wUser2` also present in the user table, so the upsert
witness can resolve the target user. -/
def wDB5 : DB := { wDB3 with users := [wUser1, wUser2, wUser3] }

/-- The existing viewer-role assignment row for (user 2, project 10). -/
def wAssign101 : Assignment :=
  { id := 101, user_id := 2, project_id := 10, role := "viewer",
    assigned_by := 1 }

/-- The store `wDB5` after re-assigning user 2 on project 10 as
"editor": the existing viewer row is updated in place. -/
def wDB5upd : DB :=
  { wDB5 with assignments :=
      [{ id := 100, user_id := 1, project_id := 10, role := "viewer",
         assigned_by := 1 },
       { id := 101, user_id := 2, project_id := 10, role := "editor",
         assigned_by := 1 }] }

theorem assignment_create_upsert_witness :
    AtMostOnePerPair wDB5upd.assignments ∧
    wDB5upd.assignments.length = wDB5.assignments.length ∧
    projectAssignmentCount wDB5upd.assignments 10 =
      projectAssignmentCount wDB5.assignments 10 ∧
    ∃ b ∈ wDB5upd.assignments, b.user_id = 2 ∧
      b.project_id = 10 ∧ b.role = "editor" := by
  have h := assignment_create_upsert wDB5 10 ⟨2, "editor"⟩ wUser3 999 wDB5upd
    (by decide) (by rfl)
  have h2 := h.2 wAssign101 (by rfl)
  exact ⟨h.1, h2.1, h2.2.1, h2.2.2⟩

/-! ## Period partial update (`update_period`, periods.py lines 150-184)

Pydantic's `dict(exclude_unset=True)` distinguishes a field absent from
the payload from a field explicitly set; for nullable columns an
explicitly null value is applied.  Payload fields are therefore
`Option (Option v)` for nullable columns (outer: present in payload;
inner: explicit null vs a value) and `Option v` for the non-nullable
columns name/start_date/end_date (whose schema type only admits a
value). -/

/-- The `PeriodUpdate` request body (`app/models/period.py`). -/
structure PeriodUpdateBody where
  name : Option String
  start_date : Option Nat
  end_date : Option Nat
  volume : Option (Option Int)
  start_time : Option (Option Nat)
  width : Option (Option Int)
  max_depth : Option (Option Int)
  notes : Option (Option String)
  kml_file_id : Option (Option Nat)
deriving Repr, DecidableEq

/-- The `for key, value in period_data.dict(exclude_unset=True)` loop of
periods.py lines 176-179, written fieldwise: every present field is
applied via `setattr`, except that `kml_file_id` explicitly set to null
is skipped (`if key == "kml_file_id" and value is None: continue`). -/
def applyPeriodUpdate (pd : PeriodUpdateBody) (p : Period) : Period :=
  { p with
    name := pd.name.getD p.name,
    start_date := pd.start_date.getD p.start_date,
    end_date := pd.end_date.getD p.end_date,
    volume := pd.volume.getD p.volume,
    start_time := pd.start_time.getD p.start_time,
    width := pd.width.getD p.width,
    max_depth := pd.max_depth.getD p.max_depth,
    notes := pd.notes.getD p.notes,
    kml_file_id :=
      match pd.kml_file_id with
      | some (some v) => some v
      | some none => p.kml_file_id
      | none => p.kml_file_id }

/-- In-place mutation of the period row the handler looked up: replace
the first row with the given id. -/
def updatePeriodRow (pid : Nat) (f : Period → Period) : List Period → List Period
  | [] => []
  | p :: rest =>
    if p.id == pid then f p :: rest else p :: updatePeriodRow pid f rest

/-- `update_period` (periods.py lines 150-184): row lookup (404 when
absent), edit-tier check on the related project (403 on denial), then
the partial update. -/
def update_period (db : DB) (period_id : Nat) (pd : PeriodUpdateBody)
    (u : User) : Except ApiError DB :=
  match db.periods.find? (fun x => x.id == period_id) with
  | none => .error .notFound
  | some p =>
    if check_project_edit_access db p.project_id u = false then
      .error .authorization
    else
      .ok { db with periods :=
              updatePeriodRow period_id (applyPeriodUpdate pd) db.periods }

/-- C8: the period update is a partial update with one asymmetry: fields
absent from the payload leave the stored row unchanged; present fields
are applied, including nullable fields explicitly set to the empty value
(shown for notes/volume/width/max_depth/start_time); but kml_file_id
explicitly set to null is ignored — the stored reference survives.  The
handler commits exactly this transformation on the looked-up row. -/
theorem period_update_frame (db : DB) (pid : Nat) (pd : PeriodUpdateBody)
    (u : User) (p : Period)
    (hp : db.periods.find? (fun x => x.id == pid) = some p)
    (hacc : check_project_edit_access db p.project_id u = true) :
    update_period db pid pd u =
      .ok { db with periods :=
              updatePeriodRow pid (applyPeriodUpdate pd) db.periods } ∧
    (pd.name = none → (applyPeriodUpdate pd p).name = p.name) ∧
    (∀ v, pd.name = some v → (applyPeriodUpdate pd p).name = v) ∧
    (pd.start_date = none → (applyPeriodUpdate pd p).start_date = p.start_date) ∧
    (∀ v, pd.start_date = some v → (applyPeriodUpdate pd p).start_date = v) ∧
    (pd.end_date = none → (applyPeriodUpdate pd p).end_date = p.end_date) ∧
    (∀ v, pd.end_date = some v → (applyPeriodUpdate pd p).end_date = v) ∧
    (pd.volume = none → (applyPeriodUpdate pd p).volume = p.volume) ∧
    (∀ v, pd.volume = some v → (applyPeriodUpdate pd p).volume = v) ∧
    (pd.start_time = none → (applyPeriodUpdate pd p).start_time = p.start_time) ∧
    (∀ v, pd.start_time = some v → (applyPeriodUpdate pd p).start_time = v) ∧
    (pd.width = none → (applyPeriodUpdate pd p).width = p.width) ∧
    (∀ v, pd.width = some v → (applyPeriodUpdate pd p).width = v) ∧
    (pd.max_depth = none → (applyPeriodUpdate pd p).max_depth = p.max_depth) ∧
    (∀ v, pd.max_depth = some v → (applyPeriodUpdate pd p).max_depth = v) ∧
    (pd.notes = none → (applyPeriodUpdate pd p).notes = p.notes) ∧
    (∀ v, pd.notes = some v → (applyPeriodUpdate pd p).notes = v) ∧
    (pd.kml_file_id = none → (applyPeriodUpdate pd p).kml_file_id = p.kml_file_id) ∧
    (pd.kml_file_id = some none →
      (applyPeriodUpdate pd p).kml_file_id = p.kml_file_id) ∧
    (∀ v, pd.kml_file_id = some (some v) →
      (applyPeriodUpdate pd p).kml_file_id = some v) ∧
    (applyPeriodUpdate pd p).id = p.id ∧
    (applyPeriodUpdate pd p).project_id = p.project_id ∧
    (applyPeriodUpdate pd p).created_by = p.created_by := by
  refine ⟨?_, ?_⟩
  · unfold update_period
    rw [hp]
    simp [hacc]
  · repeat' constructor
    all_goals
      first
      | (intro h; simp [applyPeriodUpdate, h])
      | (intro v h; simp [applyPeriodUpdate, h])

/-- A concrete period row for the update witness. -/
def wPeriod : Period :=
  { id := 20, project_id := 10, name := "q1", start_date := 1,
    end_date := 2, volume := some 5, start_time := none, width := none,
    max_depth := none, notes := some "old", created_by := some 1,
    kml_file_id := some 77 }

/-- `wDB` with one period row. -/
def wDBp : DB := { wDB with periods := [wPeriod] }

/-- Payload: notes explicitly cleared, kml_file_id explicitly null,
name set, everything else absent. -/
def wPeriodUpd : PeriodUpdateBody :=
  { name := some "q2", start_date := none, end_date := none,
    volume := none, start_time := none, width := none, max_depth := none,
    notes := some none, kml_file_id := some none }

theorem period_update_frame_witness :
    update_period wDBp 20 wPeriodUpd wUser1 =
      .ok { wDBp with periods :=
              updatePeriodRow 20 (applyPeriodUpdate wPeriodUpd) wDBp.periods } ∧
    (applyPeriodUpdate wPeriodUpd wPeriod).name = "q2" ∧
    (applyPeriodUpdate wPeriodUpd wPeriod).notes = none ∧
    (applyPeriodUpdate wPeriodUpd wPeriod).volume = some 5 ∧
    (applyPeriodUpdate wPeriodUpd wPeriod).kml_file_id = some 77 := by
  have h := period_update_frame wDBp 20 wPeriodUpd wUser1 wPeriod
    (by rfl) (by decide)
  refine ⟨h.1, ?_, ?_, ?_, ?_⟩
  · exact h.2.2.1 "q2" rfl
  · exact h.2.2.2.2.2.2.2.2.2.2.2.2.2.2.2.2.1 none rfl
  · exact h.2.2.2.2.2.2.2.1 rfl
  · exact h.2.2.2.2.2.2.2.2.2.2.2.2.2.2.2.2.2.2.1 rfl

/-! ## User update (`update_user`, users.py lines 113-158) -/

/-- The `UserUpdate` request body (`app/models/user.py`): the handler
only tests `is not None`, so absent and explicitly-null fields are
indistinguishable here and a single `Option` layer suffices. -/
structure UserUpdateBody where
  email : Option String
  name : Option String
  role : Option String
  is_active : Option Bool
  password : Option String
deriving Repr, DecidableEq

/-- The password-hashing primitive (`app/core/security.py`,
passlib/bcrypt) is an external collaborator out of the spec's scope;
modelled as an injective tagging function. -/
def get_password_hash (pw : String) : String := "bcrypt$" ++ pw

/-- The field-application block of users.py lines 139-153: email and
name are applied whenever present; role and is_active are applied only
when the acting user's global role is admin; a present password is
hashed and stored. -/
def applyUserUpdate (ud : UserUpdateBody) (actor_role : String) (x : User) :
    User :=
  { x with
    email := ud.email.getD x.email,
    name := ud.name.getD x.name,
    role := if actor_role == "admin" then ud.role.getD x.role else x.role,
    is_active :=
      if actor_role == "admin" then ud.is_active.getD x.is_active
      else x.is_active,
    hashed_password :=
      match ud.password with
      | some pw => get_password_hash pw
      | none => x.hashed_password }

/-- In-place mutation of the user row the handler looked up. -/
def updateUserRow (uid : Nat) (f : User → User) : List User → List User
  | [] => []
  | x :: rest =>
    if x.id == uid then f x :: rest else x :: updateUserRow uid f rest

/-- `update_user` (users.py lines 113-158): self-or-admin gate (403),
row lookup (404), then the conditional field application. -/
def update_user (db : DB) (user_id : Nat) (ud : UserUpdateBody) (cu : User) :
    Except ApiError DB :=
  if !(cu.id == user_id) && !(cu.role == "admin") then
    .error .authorization
  else
    match db.users.find? (fun x => x.id == user_id) with
    | none => .error .notFound
    | some _ =>
      .ok { db with users :=
              updateUserRow user_id (applyUserUpdate ud cu.role) db.users }

/-- C9: a non-admin acting user can only ever update their own record
(any other target is rejected before the store is touched), and for
their own record any role or is_active values in the payload are
silently ignored — the stored values survive and the update still
succeeds — while present name, email and password values are applied. -/
theorem nonadmin_update_ignores_role_and_active (db : DB) (uid : Nat)
    (ud : UserUpdateBody) (cu : User) (x : User)
    (hcu : cu.role ≠ "admin")
    (hx : db.users.find? (fun y => y.id == uid) = some x) :
    (∀ db', update_user db uid ud cu = .ok db' → cu.id = uid) ∧
    (cu.id = uid →
      update_user db uid ud cu =
        .ok { db with users :=
                updateUserRow uid (applyUserUpdate ud cu.role) db.users } ∧
      (applyUserUpdate ud cu.role x).role = x.role ∧
      (applyUserUpdate ud cu.role x).is_active = x.is_active ∧
      (∀ v, ud.name = some v → (applyUserUpdate ud cu.role x).name = v) ∧
      (∀ v, ud.email = some v → (applyUserUpdate ud cu.role x).email = v) ∧
      (∀ v, ud.password = some v →
        (applyUserUpdate ud cu.role x).hashed_password = get_password_hash v)) := by
  have hra : (cu.role == "admin") = false := by
    simp [hcu]
  constructor
  · intro db' h
    unfold update_user at h
    by_cases hid : cu.id = uid
    · exact hid
    · rw [if_pos (by simp [hid, hra])] at h
      exact absurd h (by simp)
  · intro hid
    refine ⟨?_, by simp [applyUserUpdate, hra], by simp [applyUserUpdate, hra],
      ?_, ?_, ?_⟩
    · unfold update_user
      rw [if_neg (by simp [hid]), hx]
    · intro v hv; simp [applyUserUpdate, hv]
    · intro v hv; simp [applyUserUpdate, hv]
    · intro v hv; simp [applyUserUpdate, hv]

/-- Payload attempting to escalate wUser2's own role and flip is_active,
while also renaming. -/
def wUserUpd : UserUpdateBody :=
  { email := some "new@x", name := some "Renamed", role := some "admin",
    is_active := some false, password := some "pw2" }

theorem nonadmin_update_ignores_role_and_active_witness :
    update_user wDB5 2 wUserUpd wUser2 =
      .ok { wDB5 with users :=
              updateUserRow 2 (applyUserUpdate wUserUpd wUser2.role) wDB5.users } ∧
    (applyUserUpdate wUserUpd wUser2.role wUser2).role = wUser2.role ∧
    (applyUserUpdate wUserUpd wUser2.role wUser2).is_active = wUser2.is_active ∧
    (applyUserUpdate wUserUpd wUser2.role wUser2).name = "Renamed" ∧
    (applyUserUpdate wUserUpd wUser2.role wUser2).email = "new@x" ∧
    (applyUserUpdate wUserUpd wUser2.role wUser2).hashed_password =
      get_password_hash "pw2" := by
  have h := (nonadmin_update_ignores_role_and_active wDB5 2 wUserUpd wUser2
    wUser2 (by decide) (by rfl)).2 rfl
  exact ⟨h.1, h.2.1, h.2.2.1, h.2.2.2.1 "Renamed" rfl,
    h.2.2.2.2.1 "new@x" rfl, h.2.2.2.2.2 "pw2" rfl⟩

/-! ## File upload (`upload_file`, files.py lines 104-184, and
`save_upload_file` in `app/utils/file_utils.py`)

The filesystem and the storage step's failure points are external
effects; they are modelled by an explicit outcome parameter.  The
decisive detail of the source: the except-branch cleanup
(files.py lines 180-182) runs `delete_file(file_path)` only when
`"file_path" in locals()`, i.e. only when `save_upload_file` returned —
an exception raised inside `save_upload_file` after the target file was
opened and partially written leaves `file_path` unbound in the handler,
so the partial file is never deleted. -/

/-- How the storage step (`create_upload_dir` + `save_upload_file`)
behaves on this request. -/
inductive SaveOutcome where
  /-- the file is fully written and its path returned -/
  | success : SaveOutcome
  /-- the size check raises 413 before anything is written -/
  | tooLarge : SaveOutcome
  /-- an exception before the target file is opened: nothing on disk -/
  | failBeforeWrite : SaveOutcome
  /-- an exception while writing: a partial file is on disk at the
  target path, and `save_upload_file` does not return -/
  | failDuringWrite : SaveOutcome
deriving Repr, DecidableEq

/-- The external effects of one upload request. -/
structure World where
  save : SaveOutcome
  commitFails : Bool
  size : Nat
deriving Repr, DecidableEq

/-- The unique on-disk path `create_upload_dir` + `save_upload_file`
produce for this request (UPLOAD_DIR/project_id/<fresh uuid>/filename). -/
def uploadPath (pid fresh_id : Nat) (filename : String) : String :=
  "uploads/" ++ toString pid ++ "/" ++ toString fresh_id ++ "/" ++ filename

/-- files.py line 144. -/
def valid_categories : List String := ["map", "image", "document", "analysis"]

/-- Result of one upload request: the handler response together with the
files this upload leaves on disk. -/
structure UploadOutcome where
  result : Except ApiError DB
  disk : List String
deriving Repr

/-- The try/except block of files.py lines 151-184 (after validation
passed and the project id was resolved): directory creation, save,
database insert, and the except-branch cleanup keyed on whether
`file_path` was bound. -/
def uploadToProject (db : DB) (u : User) (filename : String) (pid : Nat)
    (perid : Option Nat) (category : String) (fresh_id : Nat) (w : World) :
    UploadOutcome :=
  if check_project_edit_access db pid u = false then
    { result := .error .authorization, disk := [] }
  else if !(valid_categories.contains category) then
    { result := .error .validationErr, disk := [] }
  else
    match w.save with
    | .tooLarge => { result := .error .fileUpload, disk := [] }
    | .failBeforeWrite => { result := .error .fileUpload, disk := [] }
    | .failDuringWrite =>
      -- save_upload_file raised mid-write: `file_path` is not in the
      -- handler's locals, the cleanup is skipped, the partial file stays
      { result := .error .fileUpload,
        disk := [uploadPath pid fresh_id filename] }
    | .success =>
      if w.commitFails then
        -- exception after save returned: cleanup deletes the file
        { result := .error .fileUpload, disk := [] }
      else
        { result := .ok { db with files := db.files ++
            [{ id := fresh_id, name := filename,
               path := uploadPath pid fresh_id filename, size := w.size,
               content_type := "application/octet-stream",
               category := category, project_id := pid, period_id := perid,
               uploaded_by := u.id }] },
          disk := [uploadPath pid fresh_id filename] }

/-- `upload_file` (files.py lines 104-184): parameter validation, period
resolution, then the guarded storage block. -/
def upload_file (db : DB) (u : User) (filename : String)
    (project_id period_id : Option Nat) (category : String)
    (fresh_id : Nat) (w : World) : UploadOutcome :=
  match project_id, period_id with
  | none, none => { result := .error .validationErr, disk := [] }
  | pidOpt, some perid =>
    match db.periods.find? (fun x => x.id == perid) with
    | none => { result := .error .notFound, disk := [] }
    | some per =>
      uploadToProject db u filename (pidOpt.getD per.project_id)
        (some perid) category fresh_id w
  | some pid, none =>
    uploadToProject db u filename pid none category fresh_id w

/-- C7: evaluating the upload handler.  The first half of the claim
holds: an upload with category "invalid" fails validation with no File
row and nothing on disk.  The second half fails: when the write step
itself raises after partially writing the file (e.g. disk full during
`f.write`), the error propagates as a FileUploadError but the partial
file remains on disk, because the cleanup only fires when
`save_upload_file` returned the path.  (When the failure comes after the
save step, e.g. at commit, the written file is removed.) -/
theorem upload_cleanup_misses_mid_write_failure :
    (upload_file wDB wUser1 "a.txt" (some 10) none "invalid" 500
        { save := .success, commitFails := false, size := 3 }).result =
      .error .validationErr ∧
    (upload_file wDB wUser1 "a.txt" (some 10) none "invalid" 500
        { save := .success, commitFails := false, size := 3 }).disk = [] ∧
    (upload_file wDB wUser1 "a.txt" (some 10) none "map" 500
        { save := .failDuringWrite, commitFails := false, size := 3 }).result =
      .error .fileUpload ∧
    (upload_file wDB wUser1 "a.txt" (some 10) none "map" 500
        { save := .failDuringWrite, commitFails := false, size := 3 }).disk =
      [uploadPath 10 500 "a.txt"] ∧
    (upload_file wDB wUser1 "a.txt" (some 10) none "map" 500
        { save := .failDuringWrite, commitFails := false, size := 3 }).disk ≠ [] ∧
    (upload_file wDB wUser1 "a.txt" (some 10) none "map" 500
        { save := .success, commitFails := true, size := 3 }).result =
      .error .fileUpload ∧
    (upload_file wDB wUser1 "a.txt" (some 10) none "map" 500
        { save := .success, commitFails := true, size := 3 }).disk = [] := by
  refine ⟨rfl, rfl, rfl, rfl, by decide, rfl, rfl⟩

end Niquel
